import Mathlib

/-!
A shallow embedding of the watermarking tool in `src/main.py` (a PySide6/PIL
batch text-watermark application), together with proofs of the behavioural
properties stated in its specification.

Conventions of the embedding:
* Python floats are modelled as `ℚ` (exact rationals); Python ints as `ℤ`/`ℕ`.
* `int(x)` on a nonnegative float is truncation toward zero, i.e. the floor.
* Stateful Qt widgets become explicit state records with pure transition
  functions; a sequence of UI events is a list of operations folded over the
  initial state.
* Fallible Python code (exceptions) becomes `Except String` / `Option`.
* External collaborators (PIL font measurement and glyph rasterisation, the
  OS path normalisation functions) are passed in as function parameters, so
  every theorem quantifies over their behaviour.
-/

namespace WM

/-! ## Python arithmetic helpers -/

/-- Python `int(q)` for a rational `q`: truncation toward zero. -/
def pyTrunc (q : ℚ) : ℤ :=
  if q < 0 then -⌊-q⌋ else ⌊q⌋

@[simp] theorem pyTrunc_of_nonneg {q : ℚ} (h : 0 ≤ q) : pyTrunc q = ⌊q⌋ := by
  simp [pyTrunc, not_lt.mpr h]

/-! ## Preview placement state (`PreviewWidget`, `src/main.py` lines 38-85)

The widget's live fields `_opacity`, `_scale`, `_norm_pos` and their setters
`set_opacity_percent`, `set_norm_pos`, `set_scale_percent`, `set_scale`. -/

structure PreviewState where
  opacity : ℚ
  scale : ℚ
  normX : ℚ
  normY : ℚ
  deriving DecidableEq, Repr

/-- Initial field values from `PreviewWidget.__init__`:
`_opacity = 1.0`, `_scale = 1.0`, `_norm_pos = QPointF(0.8, 0.85)`. -/
def initPreview : PreviewState :=
  { opacity := 1, scale := 1, normX := 8/10, normY := 85/100 }

/-- Setter `set_opacity_percent(percent)`: `_opacity = max(0.0, min(1.0, percent / 100.0))`. -/
def set_opacity_percent (st : PreviewState) (percent : ℤ) : PreviewState :=
  { st with opacity := max 0 (min 1 ((percent : ℚ) / 100)) }

/-- Setter `set_norm_pos(x, y)`: both components clamped into `[0, 1]`. -/
def set_norm_pos (st : PreviewState) (x y : ℚ) : PreviewState :=
  { st with normX := max 0 (min 1 x), normY := max 0 (min 1 y) }

/-- Setter `set_scale(scale)`: clamp to `[0.5, 3.0]`; the stored scale is replaced only
when it moves by more than `1e-6`, otherwise kept. -/
def set_scale (st : PreviewState) (scale : ℚ) : PreviewState :=
  let newScale := max (1/2) (min 3 scale)
  if 1/1000000 < |newScale - st.scale| then { st with scale := newScale } else st

/-- Setter `set_scale_percent(percent)`: same as `set_scale` at `percent / 100.0`. -/
def set_scale_percent (st : PreviewState) (percent : ℤ) : PreviewState :=
  let newScale := max (1/2) (min 3 ((percent : ℚ) / 100))
  if 1/1000000 < |newScale - st.scale| then { st with scale := newScale } else st

/-- One call to a setter of the shared placement state, with its argument. -/
inductive PreviewOp where
  | opacityPercent (percent : ℤ)
  | normPos (x y : ℚ)
  | scale (s : ℚ)
  | scalePercent (percent : ℤ)
  deriving Repr

def applyPreviewOp (st : PreviewState) : PreviewOp → PreviewState
  | .opacityPercent p => set_opacity_percent st p
  | .normPos x y => set_norm_pos st x y
  | .scale s => set_scale st s
  | .scalePercent p => set_scale_percent st p

def runPreviewOps (ops : List PreviewOp) : PreviewState :=
  ops.foldl applyPreviewOp initPreview

/-- The range invariant of the stored placement state. -/
def PreviewInRange (st : PreviewState) : Prop :=
  0 ≤ st.opacity ∧ st.opacity ≤ 1 ∧
  1/2 ≤ st.scale ∧ st.scale ≤ 3 ∧
  0 ≤ st.normX ∧ st.normX ≤ 1 ∧ 0 ≤ st.normY ∧ st.normY ≤ 1

/-! ## Image list (`ImageListWidget`, lines 265-293) -/

/-- Method `add_image_items(paths)`: the set of existing item paths is computed once,
before the loop; a path is skipped when falsy (empty) or already in that
pre-existing set, and otherwise appended. The set is not updated inside the
loop, so the filter tests membership in the *initial* list only. -/
def add_image_items (current : List String) (paths : List String) : List String :=
  current ++ paths.filter (fun p => !(p = "" || current.contains p))

/-- The stored image list together with per-item selection flags. -/
structure ImageListState where
  items : List String
  selected : List Bool
  deriving Repr

/-- Method `get_selected_paths()`: the selected items' paths, or the whole list when
nothing is selected. -/
def get_selected_paths (l : ImageListState) : List String :=
  let sel := (l.items.zip l.selected).filter (fun pb => pb.2)
  if sel.isEmpty then l.items else sel.map (fun pb => pb.1)

/-! ## Batch driver (`process_images`, lines 698-767)

Each source path is paired with the outcome its `apply_watermark` call would
have (`.ok` = file written, `.error msg` = exception raised with that text);
the driver's control flow over these outcomes is modelled exactly. -/

/-- One batch item: source path and the outcome of processing it. -/
abbrev BatchItem := String × Except String Unit

/-- The per-item loop of `process_images` (lines 748-756): every item is
attempted in order; an exception is caught and appended to `failed` as
`(path, str(e))`. Returns (paths attempted in order, failure list in order,
source paths whose output file was written). -/
def processLoop : List BatchItem → List String × List (String × String) × List String
  | [] => ([], [], [])
  | (p, r) :: rest =>
    let (att, failed, written) := processLoop rest
    match r with
    | .ok _ => (p :: att, failed, p :: written)
    | .error e => (p :: att, (p, e) :: failed, written)

/-- Function `os.path.basename` for POSIX-style paths: the part after the last slash. -/
def basename (p : String) : String :=
  String.mk ((p.toList.reverse.takeWhile (fun c => c ≠ '/')).reverse)

/-- The final dialog of `process_images` (lines 763-767): on any failure, the
joined `basename: cause` lines; otherwise a fixed completion message. -/
def runReport (items : List BatchItem) : String :=
  let failed := (processLoop items).2.1
  if failed.isEmpty then "全部图片处理完成！"
  else String.intercalate "\n" (failed.map (fun pe => basename pe.1 ++ ": " ++ pe.2))

/-- Result of a whole `process_images` run. -/
inductive RunResult where
  | rejectedSrcDir
  | completed (failed : List (String × String))
  deriving Repr

/-- The export run from the source-directory guard onward (lines 727-756).
`normAbs` models `os.path.normcase(os.path.abspath(·))` and `dirname` models
`os.path.dirname`; both are environment-supplied. The guard (lines 728-733)
rejects the run before the processing loop whenever any source's directory
normalises to the export directory. Returns the run result, the source paths
attempted (in order), and the source paths for which an output file was
written. -/
def process_images (normAbs dirname : String → String) (exportDir : String)
    (items : List BatchItem) : RunResult × List String × List String :=
  if items.any (fun it => normAbs (dirname it.1) == normAbs exportDir) then
    (.rejectedSrcDir, [], [])
  else
    (.completed (processLoop items).2.1, (processLoop items).1, (processLoop items).2.2)

/-- The list of paths the export run processes (line 722): all items of the
image list, by index, regardless of the selection flags. -/
def exportPaths (l : ImageListState) : List String :=
  l.items

/-! ## Pixel model and `apply_watermark` (lines 769-850)

Raster images are dimensions plus a pixel function. PIL is an external
library; its operations used here (`alpha_composite`, mode conversion) are
modelled from their documented semantics, while font measurement
(`draw.textbbox`) and glyph rasterisation (`draw.text`) are oracles supplied
as function arguments. -/

/-- One straight-alpha pixel, channels in `0..255`. -/
structure RGBA where
  r : ℕ
  g : ℕ
  b : ℕ
  a : ℕ
  deriving DecidableEq, Repr

/-- A raster image: dimensions and a pixel function. -/
structure Img where
  w : ℕ
  h : ℕ
  px : ℕ → ℕ → RGBA

/-- Fully transparent image, as `Image.new("RGBA", size, (0, 0, 0, 0))`. -/
def blankImg (w h : ℕ) : Img :=
  ⟨w, h, fun _ _ => ⟨0, 0, 0, 0⟩⟩

/-- Pixelwise source-over compositing, modelled from the documented behaviour
of PIL `Image.alpha_composite` (straight-alpha "over": a fully transparent
overlay pixel leaves the base pixel unchanged; otherwise the real-valued
over formula, rounded to the nearest channel value). -/
def overPx (bot top : RGBA) : RGBA :=
  if top.a = 0 then bot
  else
    let at' : ℚ := (top.a : ℚ) / 255
    let ab : ℚ := (bot.a : ℚ) / 255
    let ao : ℚ := at' + ab * (1 - at')
    let mix : ℕ → ℕ → ℕ := fun ct cb =>
      (⌊(((ct : ℚ) * at' + (cb : ℚ) * ab * (1 - at')) / ao) + 1/2⌋).toNat
    ⟨mix top.r bot.r, mix top.g bot.g, mix top.b bot.b, (⌊ao * 255 + 1/2⌋).toNat⟩

/-- Function `Image.alpha_composite(base, overlay)` applied pixelwise (both
layers have the same size in `apply_watermark`). -/
def alpha_composite (base overlay : Img) : Img :=
  ⟨base.w, base.h, fun x y => overPx (base.px x y) (overlay.px x y)⟩

/-- Conversion `convert("RGB")` of an RGBA image: the alpha channel is
discarded (every pixel becomes opaque), the colour channels are kept. -/
def convertRGB (img : Img) : Img :=
  ⟨img.w, img.h, fun x y => let p := img.px x y; ⟨p.r, p.g, p.b, 255⟩⟩

/-- Stem part of `os.path.splitext`: drop the final dot-suffix, except when
every character before the last dot is itself a dot (names like `.bashrc`
are kept whole). -/
def splitextStem (name : String) : String :=
  let cs := name.toList
  let idxs := (List.range cs.length).filter
    (fun i => cs.getD i ' ' = '.' && (cs.take i).any (fun c => c ≠ '.'))
  match idxs.getLast? with
  | none => name
  | some i => String.mk (cs.take i)

/-- Output file name derivation of `apply_watermark` (lines 828-837): stem of
the source's base name, with the prefix string prepended when the rule is
`"prefix"` and that string is non-empty, the suffix string appended when the
rule is `"suffix"` and that string is non-empty, unchanged otherwise; the
extension is `.png` when the format is `"PNG"` and `.jpg` otherwise. -/
def out_file_name (imgPath fmt nameRule prefixText suffixText : String) : String :=
  let baseName := splitextStem (basename imgPath)
  let outBase :=
    if nameRule == "prefix" && prefixText != "" then prefixText ++ baseName
    else if nameRule == "suffix" && suffixText != "" then baseName ++ suffixText
    else baseName
  let outExt := if fmt == "PNG" then ".png" else ".jpg"
  outBase ++ outExt

/-- Everything `apply_watermark` produces that the properties talk about:
the saved raster, the output file name, the two text fills, the clamped
pixel anchor, the measured text box and the margin. -/
structure WMResult where
  image : Img
  outName : String
  shadowFill : RGBA
  foreFill : RGBA
  anchorX : ℤ
  anchorY : ℤ
  textW : ℕ
  textH : ℕ
  margin : ℕ

/-- Method `apply_watermark` (lines 769-850). `base` is the decoded source
already converted to RGBA (line 773); `measure fontSize text` is the oracle
for `draw.textbbox`, returning the text box width and height; `rasterize`
is the oracle for `draw.text`, painting glyphs at a position with a fill
onto a layer. The body follows the source statement by statement: font size
from image width and the clamped scale (lines 792-793), text box (801-803),
margin and clamped anchor (806-811), alpha (814), the two guarded draw calls
(817-820), compositing (823) and format conversion on save (841-846). -/
def apply_watermark (base : Img) (imgPath text : String) (opacityPercent : ℕ)
    (exportDir fmt nameRule prefixText suffixText : String)
    (normX normY scale : ℚ)
    (measure : ℤ → String → ℕ × ℕ)
    (rasterize : ℤ → ℤ → String → RGBA → Img → Img) : WMResult :=
  let W := base.w
  let H := base.h
  let basePx : ℕ := max 16 (W / 20)
  let fontSize : ℤ := max 8 (pyTrunc ((basePx : ℚ) * max (1/2) (min 3 scale)))
  let tw := (measure fontSize text).1
  let th := (measure fontSize text).2
  let margin : ℕ := max 10 (W / 100)
  let x : ℤ := max (margin : ℤ) (min (pyTrunc (normX * W)) ((W : ℤ) - tw - margin))
  let y : ℤ := max (margin : ℤ) (min (pyTrunc (normY * H)) ((H : ℤ) - th - margin))
  let alpha : ℕ := 255 * opacityPercent / 100
  let shadow : RGBA := ⟨0, 0, 0, alpha⟩
  let fore : RGBA := ⟨255, 255, 255, alpha⟩
  let so : ℤ := ((max 1 (W / 400) : ℕ) : ℤ)
  let layer :=
    if text = "" then blankImg W H
    else rasterize x y text fore (rasterize (x + so) (y + so) text shadow (blankImg W H))
  let combined := alpha_composite base layer
  let outImg := if fmt == "JPEG" then convertRGB combined else combined
  { image := outImg
    outName := exportDir ++ "/" ++ out_file_name imgPath fmt nameRule prefixText suffixText
    shadowFill := shadow
    foreFill := fore
    anchorX := x
    anchorY := y
    textW := tw
    textH := th
    margin := margin }

/-! ## Settings snapshots (`apply_settings_to_ui` lines 582-611,
`load_selected_template` lines 645-657)

JSON values as produced by `json.load`, the Python conversions the loader
applies to them, and the loader's statement-by-statement mutation of the UI
state. Python executes the setters in order, so an exception raised midway
leaves every earlier assignment in place; the surrounding `try` of
`load_selected_template` then reports the error in a dialog. -/

/-- JSON field values as decoded by `json.load` (numbers keep the int/float
distinction Python makes). A field whose value is itself an array or object
is collapsed to `jcompound`: the conversions below only need to know it is
neither a number, a string, a boolean nor null. -/
inductive JVal where
  | jstr (s : String)
  | jint (n : ℤ)
  | jnum (q : ℚ)
  | jbool (b : Bool)
  | jnull
  | jcompound
  deriving DecidableEq, Repr

/-- Method `dict.get(key, default)` on a decoded JSON object. -/
def jget (fields : List (String × JVal)) (k : String) (d : JVal) : JVal :=
  match fields.find? (fun f => f.1 == k) with
  | some f => f.2
  | none => d

/-- Parse of an integer literal with optional sign, the fragment of Python
`int(string)` the snapshot values use. -/
def parseIntLit (s : String) : Option ℤ :=
  let cs := s.toList
  let signed := cs.headD ' ' = '-'
  let body := if signed || cs.headD ' ' = '+' then cs.drop 1 else cs
  if !body.isEmpty && body.all (fun c => c.isDigit) then
    let n : ℤ := body.foldl (fun acc c => 10 * acc + ((c.toNat - 48 : ℕ) : ℤ)) 0
    some (if signed then -n else n)
  else none

/-- Python `int(v)`: ints pass through, floats truncate toward zero, strings
are parsed as integer literals (raising `ValueError` otherwise), booleans
count as 0/1, and any other value raises `TypeError`. -/
def pyIntOf : JVal → Except String ℤ
  | .jint n => .ok n
  | .jnum q => .ok (pyTrunc q)
  | .jstr s =>
    match parseIntLit s with
    | some n => .ok n
    | none => .error "ValueError: invalid literal for int()"
  | .jbool b => .ok (if b then 1 else 0)
  | _ => .error "TypeError: int() argument"

/-- Parse of a decimal literal with optional sign and fraction part, the
fragment of Python `float(string)` the snapshot values use (exponent and
special forms are not modelled). -/
def parseDecimal (s : String) : Option ℚ :=
  let cs := s.toList
  let signed : Bool := cs.headD ' ' = '-'
  let body := if signed || cs.headD ' ' = '+' then cs.drop 1 else cs
  let intPart := body.takeWhile (fun c => c.isDigit)
  let rest := body.dropWhile (fun c => c.isDigit)
  let ok :=
    match rest with
    | [] => !intPart.isEmpty
    | '.' :: frac => (!intPart.isEmpty || !frac.isEmpty) && frac.all (fun c => c.isDigit)
    | _ => false
  if ok then
    let frac := (rest.drop 1)
    let digits := intPart ++ frac
    let num : ℤ := digits.foldl (fun acc c => 10 * acc + (c.toNat - 48 : ℕ)) 0
    let q : ℚ := (num : ℚ) / ((10 : ℚ) ^ frac.length)
    some (if signed then -q else q)
  else none

/-- Python `float(v)`: numbers pass through, strings are parsed as decimal
literals (raising `ValueError` otherwise), booleans count as 0/1, and any
other value raises `TypeError`. -/
def pyFloatOf : JVal → Except String ℚ
  | .jint n => .ok (n : ℚ)
  | .jnum q => .ok q
  | .jstr s =>
    match parseDecimal s with
    | some q => .ok q
    | none => .error "ValueError: could not convert string to float"
  | .jbool b => .ok (if b then 1 else 0)
  | _ => .error "TypeError: float() argument"

/-- Argument check of the Qt string-typed calls (`setText`, `findText`): a
non-string value raises `TypeError` before any mutation happens. -/
def pyStrOf : JVal → Except String String
  | .jstr s => .ok s
  | _ => .error "TypeError: argument has unexpected type"

/-- The widget-stored values `apply_settings_to_ui` writes. Slider and spin
boxes clamp `setValue` arguments into their Qt ranges (opacity 0-100, size
50-300). -/
structure UIState where
  text : String
  opacity : ℤ
  sizeSpin : ℤ
  sizeSlider : ℤ
  format : String
  nameRule : String
  prefixText : String
  suffixText : String
  exportDir : String
  preview : PreviewState
  deriving DecidableEq, Repr

/-- Widget values after `MainWindow.__init__`: empty texts, opacity 100,
size 100, format `PNG`, keep-name rule, and the initial preview state. -/
def initUIState : UIState :=
  { text := "", opacity := 100, sizeSpin := 100, sizeSlider := 100,
    format := "PNG", nameRule := "keep", prefixText := "", suffixText := "",
    exportDir := "", preview := initPreview }

/-- Method `apply_settings_to_ui(s)` (lines 582-611), statement by statement.
Each conversion may raise; the pair returned is the state reached when the
body finished or the exception escaped, together with the escaping error.
Qt change-signals triggered by the setters only mirror some of these values
into the preview widget and are not modelled separately. -/
def apply_settings_to_ui (s : List (String × JVal)) (st : UIState) :
    UIState × Option String :=
  match pyStrOf (jget s "text" (.jstr "")) with
  | .error e => (st, some e)
  | .ok t =>
  let st := { st with text := t }
  match pyIntOf (jget s "opacity" (.jint 100)) with
  | .error e => (st, some e)
  | .ok v =>
  let st := { st with opacity := max 0 (min 100 v) }
  match pyIntOf (jget s "size_percent" (.jint 100)) with
  | .error e => (st, some e)
  | .ok percent =>
  let st := { st with sizeSpin := max 50 (min 300 percent),
                      sizeSlider := max 50 (min 300 percent) }
  match pyStrOf (jget s "format" (.jstr "PNG")) with
  | .error e => (st, some e)
  | .ok fmt =>
  let st := if fmt == "PNG" || fmt == "JPEG" then { st with format := fmt } else st
  let rule := jget s "name_rule" (JVal.jstr "keep")
  let st := { st with nameRule :=
    if rule = JVal.jstr "prefix" then "prefix"
    else if rule = JVal.jstr "suffix" then "suffix"
    else "keep" }
  match pyStrOf (jget s "prefix" (.jstr "")) with
  | .error e => (st, some e)
  | .ok pt =>
  let st := { st with prefixText := pt }
  match pyStrOf (jget s "suffix" (.jstr "")) with
  | .error e => (st, some e)
  | .ok sfx =>
  let st := { st with suffixText := sfx }
  match pyStrOf (jget s "export_dir" (.jstr "")) with
  | .error e => (st, some e)
  | .ok ed =>
  let st := { st with exportDir := ed }
  match pyFloatOf (jget s "norm_x" (.jnum (8/10))) with
  | .error e => (st, some e)
  | .ok nx =>
  match pyFloatOf (jget s "norm_y" (.jnum (85/100))) with
  | .error e => (st, some e)
  | .ok ny =>
  let st := { st with preview := set_norm_pos st.preview nx ny }
  match pyFloatOf (jget s "scale" (.jnum ((percent : ℚ) / 100))) with
  | .error e => (st, some e)
  | .ok sc =>
  ({ st with preview := set_scale st.preview sc }, none)

/-- Outcome of opening and JSON-decoding a template record, the part of
`load_selected_template` done by `open` and `json.load`. -/
inductive ReadResult where
  | missing
  | badJson (e : String)
  | parsedNonObject
  | parsedObject (fields : List (String × JVal))
  deriving DecidableEq, Repr

/-- Method `load_selected_template` (lines 645-657): a missing file or a JSON
decode failure raises before `apply_settings_to_ui` runs; a decoded non-object
raises on its first attribute access; otherwise the settings are applied. The
`try`/`except` surfaces any error through the dialog, modelled as the
returned `Option String`. -/
def load_selected_template (r : ReadResult) (st : UIState) : UIState × Option String :=
  match r with
  | .missing => (st, some "FileNotFoundError")
  | .badJson e => (st, some e)
  | .parsedNonObject => (st, some "AttributeError: no attribute get")
  | .parsedObject fields => apply_settings_to_ui fields st

/-! ## Concrete test fixtures -/

/-- A 100 by 100 opaque one-colour image used to instantiate theorems. -/
def testImg : Img :=
  ⟨100, 100, fun _ _ => ⟨10, 20, 30, 255⟩⟩

/-- Alpha mapping as the specification states it: `round(255 * p / 100)`,
the nearest integer with halves rounding up. -/
def specRoundAlpha (p : ℕ) : ℕ :=
  (2 * (255 * p) + 100) / 200

/-- Output-name rule as the specification states it: the stem of the source
path, prepended with the prefix string exactly when the rule is `prefix` and
that string is non-empty, appended with the suffix string exactly when the
rule is `suffix` and that string is non-empty, unchanged otherwise, with the
extension forced by the selected format. -/
def specOutFileName (imgPath fmt nameRule prefixText suffixText : String) : String :=
  let base0 := splitextStem (basename imgPath)
  let base1 := if nameRule == "prefix" && prefixText != "" then prefixText ++ base0 else base0
  let base2 := if nameRule == "suffix" && suffixText != "" then base1 ++ suffixText else base1
  let ext := if fmt == "PNG" then ".png" else if fmt == "JPEG" then ".jpg" else ""
  base2 ++ ext

/-! ## Helper lemmas -/

theorem previewInRange_init : PreviewInRange initPreview := by
  refine ⟨?_, ?_, ?_, ?_, ?_, ?_, ?_, ?_⟩ <;> norm_num [initPreview, PreviewInRange]

theorem previewInRange_step (st : PreviewState) (op : PreviewOp)
    (h : PreviewInRange st) : PreviewInRange (applyPreviewOp st op) := by
  obtain ⟨h1, h2, h3, h4, h5, h6, h7, h8⟩ := h
  cases op with
  | opacityPercent p =>
    exact ⟨le_max_left _ _, max_le (by norm_num) (min_le_left _ _), h3, h4, h5, h6, h7, h8⟩
  | normPos x y =>
    exact ⟨h1, h2, h3, h4, le_max_left _ _, max_le (by norm_num) (min_le_left _ _),
      le_max_left _ _, max_le (by norm_num) (min_le_left _ _)⟩
  | scale s =>
    simp only [applyPreviewOp, set_scale]
    split
    · exact ⟨h1, h2, le_max_left _ _, max_le (by norm_num) (min_le_left _ _), h5, h6, h7, h8⟩
    · exact ⟨h1, h2, h3, h4, h5, h6, h7, h8⟩
  | scalePercent p =>
    simp only [applyPreviewOp, set_scale_percent]
    split
    · exact ⟨h1, h2, le_max_left _ _, max_le (by norm_num) (min_le_left _ _), h5, h6, h7, h8⟩
    · exact ⟨h1, h2, h3, h4, h5, h6, h7, h8⟩

theorem previewInRange_fold (ops : List PreviewOp) :
    ∀ st, PreviewInRange st → PreviewInRange (ops.foldl applyPreviewOp st) := by
  induction ops with
  | nil => exact fun st h => h
  | cons op rest ih => exact fun st h => ih _ (previewInRange_step st op h)

theorem processLoop_attempts (items : List BatchItem) :
    (processLoop items).1 = items.map Prod.fst := by
  induction items with
  | nil => rfl
  | cons it rest ih =>
    obtain ⟨p, r⟩ := it
    cases r <;> simp [processLoop, ih]

theorem processLoop_failures (items : List BatchItem) :
    (processLoop items).2.1 = items.filterMap
      (fun it => match it.2 with
        | .ok _ => none
        | .error e => some (it.1, e)) := by
  induction items with
  | nil => rfl
  | cons it rest ih =>
    obtain ⟨p, r⟩ := it
    cases r <;> simp [processLoop, ih, List.filterMap_cons]

theorem add_image_items_nodup {current paths : List String}
    (hc : current.Nodup) (hp : paths.Nodup) :
    (add_image_items current paths).Nodup := by
  unfold add_image_items
  refine List.Nodup.append hc (hp.filter _) ?_
  intro x hx hx2
  rw [List.mem_filter] at hx2
  simp only [Bool.not_eq_true', Bool.or_eq_false_iff] at hx2
  have h1 : current.contains x = true := List.elem_eq_true_of_mem hx
  rw [hx2.2.2] at h1
  exact Bool.false_ne_true h1

theorem add_image_items_no_empty {current paths : List String}
    (hc : "" ∉ current) : "" ∉ add_image_items current paths := by
  unfold add_image_items
  intro hmem
  rcases List.mem_append.mp hmem with h | h
  · exact hc h
  · rw [List.mem_filter] at h
    simp at h

theorem add_image_items_fold (calls : List (List String)) :
    ∀ current, current.Nodup → "" ∉ current → (∀ l ∈ calls, l.Nodup) →
      (calls.foldl add_image_items current).Nodup ∧
      "" ∉ calls.foldl add_image_items current := by
  induction calls with
  | nil => exact fun current h1 h2 _ => ⟨h1, h2⟩
  | cons l rest ih =>
    intro current h1 h2 h3
    exact ih _ (add_image_items_nodup h1 (h3 l (by simp)))
      (add_image_items_no_empty h2) (fun l' hl' => h3 l' (by simp [hl']))

theorem alpha_composite_blank (base : Img) :
    alpha_composite base (blankImg base.w base.h) = base := by
  obtain ⟨w, h, px⟩ := base
  show Img.mk w h (fun x y => overPx (px x y) ⟨0, 0, 0, 0⟩) = Img.mk w h px
  have hpx : (fun x y => overPx (px x y) ⟨0, 0, 0, 0⟩) = px := by
    funext x y
    simp [overPx]
  rw [hpx]

/-! ## Claim C8 -/

/-- C8: after every call to any setter of the shared placement state
(`set_opacity_percent`, `set_scale_percent`, `set_scale`, `set_norm_pos`)
with any argument whatsoever, the stored opacity lies in `[0, 1]`, the
stored scale lies in `[0.5, 3.0]`, and both stored anchor components lie in
`[0, 1]`: every state reachable from the initial widget state by a sequence
of setter calls satisfies the range invariant, so no consumer ever observes
an out-of-range stored value. -/
theorem c8_setters_keep_range (ops : List PreviewOp) :
    PreviewInRange (runPreviewOps ops) :=
  previewInRange_fold ops initPreview previewInRange_init

/-! ## Claim C9 -/

/-- C9: the export run processes exactly the full ordered list of imported
image paths, regardless of which list items are selected: the paths handed
to the batch loop are the list items in order, independent of the selection
flags, and the loop attempts precisely those paths in that order. -/
theorem c9_export_ignores_selection (items : List String) (sel sel' : List Bool)
    (out : String → Except String Unit) :
    exportPaths ⟨items, sel⟩ = exportPaths ⟨items, sel'⟩ ∧
    (processLoop ((exportPaths ⟨items, sel⟩).map (fun p => (p, out p)))).1 = items := by
  refine ⟨rfl, ?_⟩
  rw [processLoop_attempts]
  simp [exportPaths, Function.comp_def]

/-! ## Claim C3 -/

/-- C3 (amended): processing one item's failure does not affect the others:
every item is attempted in the original order whatever the individual
outcomes, and the recorded failure list holds, in order, exactly the failing
items' source paths each paired with the exception's human-readable text.
The final dialog, however, reports no success count: it is a fixed
completion message when nothing failed and otherwise only the itemized
failure lines. -/
theorem c3_batch_isolation (items : List BatchItem) :
    (processLoop items).1 = items.map Prod.fst ∧
    (processLoop items).2.1 = items.filterMap
      (fun it => match it.2 with
        | .ok _ => none
        | .error e => some (it.1, e)) ∧
    runReport items = (if (processLoop items).2.1.isEmpty then "全部图片处理完成！"
      else String.intercalate "\n"
        ((processLoop items).2.1.map (fun pe => basename pe.1 ++ ": " ++ pe.2))) :=
  ⟨processLoop_attempts items, processLoop_failures items, rfl⟩

/-- C3 counterexample: the run's closing report contains no success count.
Two runs with the same failures but different success counts (0 written
files versus 1) produce the identical report, so the report cannot convey
the success count the claim says is reported. -/
theorem c3_counterexample :
    runReport [("d/a.png", .error "boom")] =
      runReport [("d/ok.png", .ok ()), ("d/a.png", .error "boom")] ∧
    (processLoop [("d/a.png", .error "boom")]).2.2.length = 0 ∧
    (processLoop [("d/ok.png", .ok ()), ("d/a.png", .error "boom")]).2.2.length = 1 :=
  ⟨rfl, rfl, rfl⟩

/-! ## Claim C4 -/

/-- C4: when the normalized absolute export directory equals the normalized
absolute directory of any source path, the entire run is rejected before any
image is processed and zero output files are written, for every
normalisation and directory function the environment supplies. -/
theorem c4_source_dir_rejected (normAbs dirname : String → String)
    (exportDir : String) (items : List BatchItem)
    (h : ∃ it ∈ items, normAbs (dirname it.1) = normAbs exportDir) :
    process_images normAbs dirname exportDir items = (.rejectedSrcDir, [], []) := by
  unfold process_images
  have hany : items.any (fun it => normAbs (dirname it.1) == normAbs exportDir) = true := by
    obtain ⟨it, hmem, heq⟩ := h
    exact List.any_eq_true.mpr ⟨it, hmem, by simp [heq]⟩
  simp [hany]

/-- C4 witness: a concrete run whose single source lives in the export
directory is rejected with nothing attempted and nothing written. -/
theorem c4_witness :
    process_images id (fun _ => "/pics") "/pics" [("/pics/a.png", .ok ())] =
      (.rejectedSrcDir, [], []) :=
  c4_source_dir_rejected id (fun _ => "/pics") "/pics" [("/pics/a.png", .ok ())]
    ⟨("/pics/a.png", .ok ()), by simp, rfl⟩

/-! ## Claim C10 -/

/-- C10 (amended): a path that is empty or already present in the image list
when an `add_image_items` call starts is never added by that call; hence
after any sequence of add operations the list contains no empty path, and it
contains no duplicate paths provided each single call's input list is itself
duplicate-free (duplicates inside one input list are not filtered, because
the already-present set is computed once before the loop). -/
theorem c10_no_dup_no_empty (calls : List (List String))
    (h : ∀ l ∈ calls, l.Nodup) :
    (calls.foldl add_image_items []).Nodup ∧
    "" ∉ calls.foldl add_image_items [] :=
  add_image_items_fold calls [] List.nodup_nil (by simp) h

/-- C10 witness: two overlapping duplicate-free batches leave the list
duplicate-free and without empty paths. -/
theorem c10_witness :
    (List.foldl add_image_items [] [["a", "b"], ["b", "c"]]).Nodup ∧
    "" ∉ List.foldl add_image_items [] [["a", "b"], ["b", "c"]] :=
  c10_no_dup_no_empty [["a", "b"], ["b", "c"]] (by decide)

/-- C10 counterexample: one call whose input list repeats a path adds the
path twice, because the already-present set is snapshotted before the loop;
the resulting image list has a duplicate, contradicting the claim that a
path already present is never added again. -/
theorem c10_counterexample :
    add_image_items [] ["a", "a"] = ["a", "a"] ∧
    ¬ (add_image_items [] ["a", "a"]).Nodup := by
  decide

/-! ## Claim C5 -/

/-- C5 (amended): when loading a named snapshot fails because the record
file is missing or its contents fail to decode as JSON, the in-memory state
is left completely untouched and the error is surfaced to the caller. (When
the record decodes but a field's value cannot be converted, the loader stops
midway: the error is still surfaced, but fields applied before the failing
one remain overwritten.) -/
theorem c5_unreadable_leaves_state (st : UIState) (r : ReadResult)
    (h : r = .missing ∨ ∃ e, r = .badJson e) :
    (load_selected_template r st).1 = st ∧
    (load_selected_template r st).2.isSome = true := by
  rcases h with h | ⟨e, h⟩ <;> subst h <;> simp [load_selected_template]

/-- C5 witness: loading a missing record from the initial UI state reports
an error and changes nothing. -/
theorem c5_witness :
    (load_selected_template .missing initUIState).1 = initUIState ∧
    (load_selected_template .missing initUIState).2.isSome = true :=
  c5_unreadable_leaves_state initUIState .missing (Or.inl rfl)

/-- C5 counterexample: a corrupt record that is valid JSON (text field fine,
opacity field a non-numeric string) makes the load fail, yet the text field
has already been overwritten, so the state is partially overwritten while
the error is surfaced, contradicting the claim. -/
theorem c5_counterexample :
    (load_selected_template
      (.parsedObject [("text", .jstr "hi"), ("opacity", .jstr "bad")])
      initUIState).2.isSome = true ∧
    (load_selected_template
      (.parsedObject [("text", .jstr "hi"), ("opacity", .jstr "bad")])
      initUIState).1.text = "hi" ∧
    (load_selected_template
      (.parsedObject [("text", .jstr "hi"), ("opacity", .jstr "bad")])
      initUIState).1 ≠ initUIState := by
  decide

/-! ## Claim C1 -/

theorem clamp_mem {m tw W v : ℤ} (h : tw + 2 * m ≤ W) :
    m ≤ max m (min v (W - tw - m)) ∧ max m (min v (W - tw - m)) + tw ≤ W - m := by
  refine ⟨le_max_left _ _, ?_⟩
  have h1 : max m (min v (W - tw - m)) ≤ W - tw - m :=
    max_le (by omega) (min_le_right _ _)
  omega

/-- C1 (amended): for a source image of dimensions `(W, H)`, an anchor with
nonnegative components and the measured text box `(textW, textH)`,
`apply_watermark` computes the pixel anchor as
`x = clamp(int(normX * W), margin, W - textW - margin)` and
`y = clamp(int(normY * H), margin, H - textH - margin)` with
`margin = max(10, W / 100)`; and whenever the text box fits, i.e.
`textW + 2 * margin ≤ W` and `textH + 2 * margin ≤ H`, the box lies
entirely within `[margin, W - margin] × [margin, H - margin]`. -/
theorem c1_anchor_clamp (base : Img) (imgPath text : String) (op : ℕ)
    (exportDir fmt nameRule ptx sfx : String) (normX normY scale : ℚ)
    (measure : ℤ → String → ℕ × ℕ)
    (raster : ℤ → ℤ → String → RGBA → Img → Img)
    (hx0 : 0 ≤ normX) (hy0 : 0 ≤ normY) :
    let res := apply_watermark base imgPath text op exportDir fmt nameRule ptx sfx
      normX normY scale measure raster
    res.margin = max 10 (base.w / 100) →
    res.textW + 2 * res.margin ≤ base.w →
    res.textH + 2 * res.margin ≤ base.h →
    (res.anchorX = max (res.margin : ℤ)
        (min ⌊normX * base.w⌋ ((base.w : ℤ) - res.textW - res.margin)) ∧
      res.anchorY = max (res.margin : ℤ)
        (min ⌊normY * base.h⌋ ((base.h : ℤ) - res.textH - res.margin)) ∧
      (res.margin : ℤ) ≤ res.anchorX ∧
      res.anchorX + res.textW ≤ (base.w : ℤ) - res.margin ∧
      (res.margin : ℤ) ≤ res.anchorY ∧
      res.anchorY + res.textH ≤ (base.h : ℤ) - res.margin) := by
  intro res _ hw hh
  have hxnn : (0 : ℚ) ≤ normX * base.w := mul_nonneg hx0 (by positivity)
  have hynn : (0 : ℚ) ≤ normY * base.h := mul_nonneg hy0 (by positivity)
  have e1 : res.anchorX = max (res.margin : ℤ)
      (min (pyTrunc (normX * base.w)) ((base.w : ℤ) - res.textW - res.margin)) := rfl
  have e2 : res.anchorY = max (res.margin : ℤ)
      (min (pyTrunc (normY * base.h)) ((base.h : ℤ) - res.textH - res.margin)) := rfl
  rw [pyTrunc_of_nonneg hxnn] at e1
  rw [pyTrunc_of_nonneg hynn] at e2
  have hwz : (res.textW : ℤ) + 2 * (res.margin : ℤ) ≤ (base.w : ℤ) := by exact_mod_cast hw
  have hhz : (res.textH : ℤ) + 2 * (res.margin : ℤ) ≤ (base.h : ℤ) := by exact_mod_cast hh
  obtain ⟨b1, b2⟩ := clamp_mem (v := ⌊normX * (base.w : ℚ)⌋) hwz
  obtain ⟨b3, b4⟩ := clamp_mem (v := ⌊normY * (base.h : ℚ)⌋) hhz
  refine ⟨e1, e2, ?_, ?_, ?_, ?_⟩
  · rw [e1]; exact b1
  · rw [e1]; exact b2
  · rw [e2]; exact b3
  · rw [e2]; exact b4

/-- C1 witness: a 100 by 100 image, a 20 by 10 text box and anchor
(0.5, 0.5) satisfy the fit hypotheses, and the computed anchor (50, 50)
keeps the box inside the margins. -/
theorem c1_witness :
    let res := apply_watermark testImg "/pics/p.png" "T" 100 "/out" "PNG" "keep" "" ""
      (1/2) (1/2) 1 (fun _ _ => (20, 10)) (fun _ _ _ _ i => i)
    (0 ≤ (1/2 : ℚ)) ∧
    res.margin = max 10 (testImg.w / 100) ∧
    res.textW + 2 * res.margin ≤ testImg.w ∧
    res.textH + 2 * res.margin ≤ testImg.h ∧
    (res.anchorX = max (res.margin : ℤ)
        (min ⌊(1/2 : ℚ) * testImg.w⌋ ((testImg.w : ℤ) - res.textW - res.margin)) ∧
      res.anchorY = max (res.margin : ℤ)
        (min ⌊(1/2 : ℚ) * testImg.h⌋ ((testImg.h : ℤ) - res.textH - res.margin)) ∧
      (res.margin : ℤ) ≤ res.anchorX ∧
      res.anchorX + res.textW ≤ (testImg.w : ℤ) - res.margin ∧
      (res.margin : ℤ) ≤ res.anchorY ∧
      res.anchorY + res.textH ≤ (testImg.h : ℤ) - res.margin) := by
  refine ⟨by norm_num, by decide, by decide, by decide, ?_⟩
  exact (c1_anchor_clamp testImg "/pics/p.png" "T" 100 "/out" "PNG" "keep" "" ""
    (1/2) (1/2) 1 (fun _ _ => (20, 10)) (fun _ _ _ _ i => i)
    (by norm_num) (by norm_num)) (by decide) (by decide) (by decide)

/-- C1 counterexample: on a 100 by 100 image with a measured text box of
90 by 10 and anchor (1, 1) — all inside the claim's domain — the margin is
10 and the clamped x anchor is 10, so the box ends at x = 100, beyond the
claimed right boundary `W - margin = 90`: the box does not lie entirely
within the claimed bounds for every input. -/
theorem c1_counterexample :
    let res := apply_watermark testImg "/pics/p.png" "SAMPLE" 100 "/out" "PNG" "keep" "" ""
      1 1 1 (fun _ _ => (90, 10)) (fun _ _ _ _ i => i)
    res.margin = 10 ∧ res.anchorX = 10 ∧ res.textW = 90 ∧
    ¬ (res.anchorX + res.textW ≤ (testImg.w : ℤ) - res.margin) := by
  intro res
  have hfloor : pyTrunc ((1 : ℚ) * ((100 : ℕ) : ℚ)) = 100 := by
    rw [one_mul, pyTrunc_of_nonneg (by positivity)]
    exact_mod_cast Int.floor_natCast (100 : ℕ)
  have e1 : res.anchorX = max ((max 10 (100 / 100) : ℕ) : ℤ)
      (min (pyTrunc ((1 : ℚ) * ((100 : ℕ) : ℚ)))
        (((100 : ℕ) : ℤ) - ((90 : ℕ) : ℤ) - ((max 10 (100 / 100) : ℕ) : ℤ))) := rfl
  rw [hfloor] at e1
  have hx : res.anchorX = 10 := by rw [e1]; decide
  refine ⟨rfl, hx, rfl, ?_⟩
  rw [hx]
  decide

/-! ## Claim C2 -/

/-- C2 (amended): for every opacity percent, the alpha used for both the
black shadow fill and the white foreground fill equals
`int(255 * opacityPercent / 100)` — the floor, not the round, of
`255 * opacityPercent / 100` — and this mapping is monotonic in the
opacity percent. -/
theorem c2_alpha_floor_monotone (base : Img) (imgPath text : String)
    (exportDir fmt nameRule ptx sfx : String) (normX normY scale : ℚ)
    (measure : ℤ → String → ℕ × ℕ)
    (raster : ℤ → ℤ → String → RGBA → Img → Img)
    (p q : ℕ) (hpq : p ≤ q) :
    (apply_watermark base imgPath text p exportDir fmt nameRule ptx sfx
        normX normY scale measure raster).shadowFill = ⟨0, 0, 0, 255 * p / 100⟩ ∧
    (apply_watermark base imgPath text p exportDir fmt nameRule ptx sfx
        normX normY scale measure raster).foreFill = ⟨255, 255, 255, 255 * p / 100⟩ ∧
    (apply_watermark base imgPath text p exportDir fmt nameRule ptx sfx
        normX normY scale measure raster).shadowFill.a ≤
      (apply_watermark base imgPath text q exportDir fmt nameRule ptx sfx
        normX normY scale measure raster).shadowFill.a :=
  ⟨rfl, rfl, Nat.div_le_div_right (Nat.mul_le_mul_left 255 hpq)⟩

/-- C2 witness: at opacity 30 both fills carry alpha 76, and the alpha at
opacity 30 is at most the alpha at opacity 60. -/
theorem c2_witness :
    (30 ≤ 60) ∧
    ((apply_watermark testImg "/pics/p.png" "T" 30 "/out" "PNG" "keep" "" ""
        0 0 1 (fun _ _ => (1, 1)) (fun _ _ _ _ i => i)).shadowFill
        = ⟨0, 0, 0, 255 * 30 / 100⟩ ∧
      (apply_watermark testImg "/pics/p.png" "T" 30 "/out" "PNG" "keep" "" ""
        0 0 1 (fun _ _ => (1, 1)) (fun _ _ _ _ i => i)).foreFill
        = ⟨255, 255, 255, 255 * 30 / 100⟩ ∧
      (apply_watermark testImg "/pics/p.png" "T" 30 "/out" "PNG" "keep" "" ""
        0 0 1 (fun _ _ => (1, 1)) (fun _ _ _ _ i => i)).shadowFill.a ≤
        (apply_watermark testImg "/pics/p.png" "T" 60 "/out" "PNG" "keep" "" ""
          0 0 1 (fun _ _ => (1, 1)) (fun _ _ _ _ i => i)).shadowFill.a) :=
  ⟨by decide, c2_alpha_floor_monotone testImg "/pics/p.png" "T" "/out" "PNG" "keep" "" ""
    0 0 1 (fun _ _ => (1, 1)) (fun _ _ _ _ i => i) 30 60 (by decide)⟩

/-- C2 counterexample: at opacity 3 the program computes alpha
`int(255 * 0.03) = 7`, while the claimed `round(255 * 3 / 100) =
round(7.65) = 8`; the two disagree, so the alpha is not the round. -/
theorem c2_counterexample :
    (apply_watermark testImg "/pics/p.png" "T" 3 "/out" "PNG" "keep" "" ""
        0 0 1 (fun _ _ => (1, 1)) (fun _ _ _ _ i => i)).shadowFill.a = 7 ∧
    specRoundAlpha 3 = 8 ∧
    (apply_watermark testImg "/pics/p.png" "T" 3 "/out" "PNG" "keep" "" ""
        0 0 1 (fun _ _ => (1, 1)) (fun _ _ _ _ i => i)).shadowFill.a ≠
      specRoundAlpha 3 := by
  decide

/-! ## Claim C6 -/

theorem out_file_name_eq_spec (imgPath fmt nameRule ptx sfx : String)
    (h : fmt = "PNG" ∨ fmt = "JPEG") :
    out_file_name imgPath fmt nameRule ptx sfx =
      specOutFileName imgPath fmt nameRule ptx sfx := by
  unfold out_file_name specOutFileName
  have hext : (if fmt == "PNG" then ".png" else ".jpg")
      = (if fmt == "PNG" then ".png" else if fmt == "JPEG" then ".jpg" else "") := by
    rcases h with h | h <;> subst h <;> rfl
  rw [hext]
  by_cases hp : (nameRule == "prefix" && ptx != "") = true
  · have h1 : nameRule = "prefix" := by
      simp only [Bool.and_eq_true, beq_iff_eq] at hp
      exact hp.1
    subst h1
    simp [hp]
  · simp only [Bool.not_eq_true] at hp
    simp [hp]

/-- C6: for every source path, naming rule and output format (`PNG` or
`JPEG`), the output filename produced by `apply_watermark` equals the
specified derivation: the stem of the source's base name, prepended with
the prefix string exactly when the rule is `prefix` and that string is
non-empty, appended with the suffix string exactly when the rule is
`suffix` and that string is non-empty, unchanged otherwise, with the
extension forced to `.png` for `PNG` and `.jpg` for `JPEG` regardless of
the source's original extension. -/
theorem c6_output_name (base : Img) (imgPath text : String) (op : ℕ)
    (exportDir fmt nameRule ptx sfx : String) (normX normY scale : ℚ)
    (measure : ℤ → String → ℕ × ℕ)
    (raster : ℤ → ℤ → String → RGBA → Img → Img)
    (h : fmt = "PNG" ∨ fmt = "JPEG") :
    (apply_watermark base imgPath text op exportDir fmt nameRule ptx sfx
        normX normY scale measure raster).outName =
      exportDir ++ "/" ++ specOutFileName imgPath fmt nameRule ptx sfx := by
  show exportDir ++ "/" ++ out_file_name imgPath fmt nameRule ptx sfx = _
  rw [out_file_name_eq_spec imgPath fmt nameRule ptx sfx h]

/-- C6 witness: a `.jpeg` source exported as `JPEG` under the prefix rule
gets the prefixed stem and the forced `.jpg` extension. -/
theorem c6_witness :
    ("JPEG" = "PNG" ∨ ("JPEG" : String) = "JPEG") ∧
    (apply_watermark testImg "/pics/photo.jpeg" "T" 100 "/out" "JPEG" "prefix" "wm_" ""
        0 0 1 (fun _ _ => (1, 1)) (fun _ _ _ _ i => i)).outName =
      "/out" ++ "/" ++ specOutFileName "/pics/photo.jpeg" "JPEG" "prefix" "wm_" "" :=
  ⟨Or.inr rfl, c6_output_name testImg "/pics/photo.jpeg" "T" 100 "/out" "JPEG" "prefix"
    "wm_" "" 0 0 1 (fun _ _ => (1, 1)) (fun _ _ _ _ i => i) (Or.inr rfl)⟩

/-! ## Claim C7 -/

/-- C7: for every source image and parameter set whose text is empty,
`apply_watermark` skips drawing entirely (the glyph oracle is never
consulted, for any oracle), and the output raster equals the RGBA-converted
source unchanged when the format is `PNG`, and the source flattened to an
opaque three-channel image when the format is `JPEG`. -/
theorem c7_empty_text_identity (base : Img) (imgPath text : String) (op : ℕ)
    (exportDir fmt nameRule ptx sfx : String) (normX normY scale : ℚ)
    (measure : ℤ → String → ℕ × ℕ)
    (raster : ℤ → ℤ → String → RGBA → Img → Img)
    (ht : text = "") :
    (apply_watermark base imgPath text op exportDir fmt nameRule ptx sfx
        normX normY scale measure raster).image =
      if fmt == "JPEG" then convertRGB base else base := by
  subst ht
  show (if fmt == "JPEG"
      then convertRGB (alpha_composite base (blankImg base.w base.h))
      else alpha_composite base (blankImg base.w base.h)) = _
  rw [alpha_composite_blank]

/-- C7 witness: exporting a concrete image with empty text in `JPEG` format
yields exactly the flattened source. -/
theorem c7_witness :
    ("" : String) = "" ∧
    (apply_watermark testImg "/pics/p.png" "" 80 "/out" "JPEG" "keep" "" ""
        0 0 1 (fun _ _ => (0, 0)) (fun _ _ _ _ i => i)).image =
      (if "JPEG" == "JPEG" then convertRGB testImg else testImg) :=
  ⟨rfl, c7_empty_text_identity testImg "/pics/p.png" "" 80 "/out" "JPEG" "keep" "" ""
    0 0 1 (fun _ _ => (0, 0)) (fun _ _ _ _ i => i) rfl⟩

end WM
